import Mathlib

/-!
# Verification of the wandb rich-media module

Shallow embedding of `src/wandb/sdk/rich_types/video.py` and
`src/wandb/sdk/rich_types/table.py`, together with proofs checking the
natural-language specification against the code.

The abstract `Media` / `MediaSequence` base classes live in `media.py`,
which is not part of the sources; the few base behaviours the claims need
are modelled from the specification and marked as such in doc comments.
-/

namespace Wandb

/-! ## Numpy array model (for `prepare_data` in `video.py`)

Arrays are modelled as a dtype tag, a shape, and a flattened row-major
list of values.  Values are carried as `Int`; the only value-level
operation `prepare_data` performs is the cast to `uint8` (a C-style
truncating cast, i.e. reduction mod 256 on integral values). -/

/-- Numpy dtypes that can appear in the `prepare_data` pipeline:
the target dtype `uint8`, an integral input dtype, and `float64`
(the default dtype of `np.zeros`). -/
inductive Dtype
  | uint8
  | int64
  | float64
deriving DecidableEq, Repr

/-- Numpy type promotion, restricted to the dtypes above
(`float64` absorbs everything, `int64` absorbs `uint8`). -/
def Dtype.promote : Dtype → Dtype → Dtype
  | .float64, _ => .float64
  | _, .float64 => .float64
  | .int64, _ => .int64
  | _, .int64 => .int64
  | .uint8, .uint8 => .uint8

/-- A numpy ndarray: dtype, shape, and flattened row-major data. -/
structure NDArray where
  shape : List Nat
  dtype : Dtype
  data : List Int
deriving DecidableEq, Repr

/-- `array.astype(np.uint8)`: values are truncated mod 2^8, dtype becomes
`uint8`, shape is unchanged. -/
def astype_uint8 (a : NDArray) : NDArray :=
  { a with dtype := .uint8, data := a.data.map (fun v => v % 256) }

/-- `np.zeros(shape=s)`: a zero array; numpy's default dtype is `float64`. -/
def np_zeros (s : List Nat) : NDArray :=
  { shape := s, dtype := .float64, data := List.replicate s.prod 0 }

/-- `np.concatenate((a, b), axis=0)`: for row-major data, concatenation
along axis 0 appends the flat data; the result dtype is the promotion of
the two dtypes. -/
def np_concat0 (a b : NDArray) : NDArray :=
  { shape := (a.shape.headD 0 + b.shape.headD 0) :: a.shape.tail
    dtype := a.dtype.promote b.dtype
    data := a.data ++ b.data }

/-- `np.reshape(a, newshape=s)`: row-major data is unchanged; numpy raises
if the total size differs. -/
def np_reshape (a : NDArray) (s : List Nat) : Except String NDArray :=
  if a.shape.prod == s.prod then .ok { a with shape := s }
  else .error "cannot reshape array"

/-- Row-major flat index of a multi-index `idx` in an array of shape
`shape`. -/
def flattenIdx (shape idx : List Nat) : Nat :=
  (shape.zip idx).foldl (fun acc p => acc * p.1 + p.2) 0

/-- Multi-index (row-major) of flat index `k` in an array of shape
`shape`. -/
def unflattenIdx : List Nat → Nat → List Nat
  | [], _ => []
  | _ :: rest, k => k / rest.prod :: unflattenIdx rest (k % rest.prod)

/-- `np.transpose(a, axes)`: `out.shape[j] = a.shape[axes[j]]` and
`out[idx] = a[oldIdx]` with `oldIdx[axes[j]] = idx[j]`. -/
def np_transpose (a : NDArray) (axes : List Nat) : NDArray :=
  let newShape := axes.map (fun i => a.shape.getD i 0)
  { shape := newShape
    dtype := a.dtype
    data := (List.range newShape.prod).map (fun k =>
      let nidx := unflattenIdx newShape k
      let oldIdx := (List.range a.shape.length).map
        (fun i => nidx.getD (axes.findIdx (fun j => j == i)) 0)
      a.data.getD (flattenIdx a.shape oldIdx) 0) }

/-! ## `prepare_data` (video.py lines 142-170) -/

/-- Python `int.bit_length`, via a structurally decreasing fuel
(`fuel ≥ n` suffices, so `bitLength n := bitLenFuel n n` is exact). -/
def bitLenFuel : Nat → Nat → Nat
  | _, 0 => 0
  | 0, _ + 1 => 1
  | f + 1, m + 1 => bitLenFuel f ((m + 1) / 2) + 1

/-- Python `n.bit_length()`. -/
def bitLength (n : Nat) : Nat := bitLenFuel n n

/-- `is_power2` from `prepare_data`:
`num != 0 and ((num & (num - 1)) == 0)`. -/
def is_power2 (num : Nat) : Bool :=
  num != 0 && (num &&& (num - 1)) == 0

/-- The dtype-coercion step of `prepare_data`:
`if data.dtype != np.uint8: data = data.astype(np.uint8)`. -/
def cast_uint8_step (a : NDArray) : NDArray :=
  if a.dtype != .uint8 then astype_uint8 a else a

/-- The batch-padding step of `prepare_data`: if the batch dimension
(`data.shape[0]`) is not a power of two, concatenate
`np.zeros(shape=(2 ** shape[0].bit_length() - shape[0], t, c, h, w))`
along axis 0 (the zeros' trailing shape is the tail of the data shape). -/
def pad_to_pow2 (a : NDArray) : NDArray :=
  if !is_power2 (a.shape.headD 0) then
    np_concat0 a
      (np_zeros ((2 ^ bitLength (a.shape.headD 0) - a.shape.headD 0) :: a.shape.tail))
  else a

/-- `n_rows = 2 ** ((b.bit_length() - 1) // 2)` where `b` is the batch
size before padding (Python `//` on non-negative ints is `Nat` division;
`b ≥ 1` for any non-empty batch, so `Nat` subtraction agrees too). -/
def grid_rows (b : Nat) : Nat := 2 ^ ((bitLength b - 1) / 2)

/-- The grid-arrangement tail of `prepare_data`: reshape the (padded)
array to `(n_rows, n_cols, t, c, h, w)`, transpose with axes
`(2, 0, 4, 1, 5, 3)`, and reshape to `(t, n_rows*h, n_cols*w, c)`;
`n_cols = data.shape[0] // n_rows`. -/
def tile_batch (d : NDArray) (b t c h w : Nat) : Except String NDArray :=
  let n_rows := grid_rows b
  let n_cols := d.shape.headD 0 / n_rows
  do
    let r1 ← np_reshape d [n_rows, n_cols, t, c, h, w]
    let r2 := np_transpose r1 [2, 0, 4, 1, 5, 3]
    np_reshape r2 [t, n_rows * h, n_cols * w, c]

/-- `prepare_data` (video.py lines 142-170): validate the rank, promote a
4-D input to a singleton batch, unpack `(b, t, c, h, w)` (more than five
dimensions fails to unpack), cast to uint8, pad the batch to a power of
two, and tile the batch into a mosaic per timestep. -/
def prepare_data (data0 : NDArray) : Except String NDArray :=
  if data0.shape.length < 4 then
    .error "Video must be atleast 4 dimensions: time, channels, height, width"
  else
    let data1 :=
      if data0.shape.length == 4 then { data0 with shape := 1 :: data0.shape }
      else data0
    match data1.shape with
    | [b, t, c, h, w] =>
      let data2 := cast_uint8_step data1
      let data3 := pad_to_pow2 data2
      tile_batch data3 b t c h w
    | _ => .error "too many values to unpack (expected 5)"

/-! ## JSON-like descriptors and the artifact collaborator

Descriptors returned by `to_json` / `bind_to_artifact` are Python dicts;
they are modelled as a small JSON value type whose objects are ordered
key/value lists (Python dicts preserve insertion order). -/

/-- JSON-like values for serialized descriptors. -/
inductive J
  | str : String → J
  | int : Int → J
  | null : J
  | list : List J → J
  | obj : List (String × J) → J
deriving Repr

/-- Field lookup in an object descriptor (`none` on non-objects). -/
def jGet (k : String) : J → Option J
  | .obj fields => fields.lookup k
  | _ => none

/-- The Artifact collaborator (spec section 6): an opaque sink exposing a
stable reference string `artifact_path`. -/
structure Artifact where
  artifact_path : String
deriving DecidableEq, Repr

/-! ## Nested media cells (table.py)

Table cells may hold nested Media/MediaSequence objects.  The abstract
`Media` base class lives in `media.py`, which is not part of the sources. -/

/-- Modelled from the spec: an abstract nested `Media`/`MediaSequence`
object as seen from a Table cell (`media.py` is not in the sources).
Its `bind_to_artifact` returns an artifact descriptor carrying the
object-kind discriminator `_type` plus subclass fields, and records the
weak artifact reference (spec sections 3 and 4.1); the descriptor is
structurally determined by the object's content, never by the previously
recorded reference (spec 4.1: binding twice with the same artifact is
idempotent). -/
structure MediaObj where
  objType : String
  extra : List (String × J)
  artifactRef : Option Artifact
deriving Repr

/-- Modelled from the spec: `Media.bind_to_artifact` for a nested media
cell — returns the descriptor and the object with the artifact reference
recorded. -/
def mediaBind (m : MediaObj) (a : Artifact) : J × MediaObj :=
  (J.obj (("_type", J.str m.objType) :: m.extra), { m with artifactRef := some a })

/-- A Table cell value: a primitive, a nested list or dict, or a nested
media object (table.py `serialize` recurses into exactly these shapes). -/
inductive Value
  | vstr : String → Value
  | vint : Int → Value
  | vlist : List Value → Value
  | vdict : List (String × Value) → Value
  | vmedia : MediaObj → Value
deriving Repr

mutual

/-- The `serialize` closure inside `Table.bind_to_artifact` (table.py
lines 90-97), with the state change threaded: lists and dicts are
recursed into structurally, media cells are replaced by their own
`bind_to_artifact` descriptor (which records the artifact reference on
the cell), and primitives pass through unchanged. -/
def bindValue (a : Artifact) : Value → J × Value
  | .vstr s => (.str s, .vstr s)
  | .vint n => (.int n, .vint n)
  | .vlist l =>
    let p := bindList a l
    (.list p.1, .vlist p.2)
  | .vdict d =>
    let p := bindDict a d
    (.obj p.1, .vdict p.2)
  | .vmedia m =>
    let p := mediaBind m a
    (p.1, .vmedia p.2)

/-- `serialize` mapped over a list of cells. -/
def bindList (a : Artifact) : List Value → List J × List Value
  | [] => ([], [])
  | v :: vs =>
    let p := bindValue a v
    let q := bindList a vs
    (p.1 :: q.1, p.2 :: q.2)

/-- `serialize` mapped over the entries of a dict cell. -/
def bindDict (a : Artifact) : List (String × Value) → List (String × J) × List (String × Value)
  | [] => ([], [])
  | (k, v) :: rest =>
    let p := bindValue a v
    let q := bindDict a rest
    ((k, p.1) :: q.1, (k, p.2) :: q.2)

end

/-- `serialize` applied to every row
(`data = [[serialize(item) for item in row] for row in self._data]`). -/
def bindRows (a : Artifact) : List (List Value) → List (List J) × List (List Value)
  | [] => ([], [])
  | r :: rs =>
    let p := bindList a r
    let q := bindRows a rs
    (p.1 :: q.1, p.2 :: q.2)

/-! ## Table (table.py lines 16-136) -/

/-- A column label: `str` or `int`
(`Table._from_list` asserts every label is one of these). -/
inductive Col
  | cstr : String → Col
  | cint : Int → Col
deriving DecidableEq, Repr

/-- Column labels in descriptors. -/
def colToJ : Col → J
  | .cstr s => .str s
  | .cint n => .int n

/-- The Table state: `_columns`, row-major `_data`, and the weak artifact
reference of the `Media` base (modelled from the spec: initialized unset
by `Media.__init__`, `media.py` not being in the sources). -/
structure Table where
  columns : List Col
  data : List (List Value)
  artifactRef : Option Artifact
deriving Repr

/-- `Table.add_data` (table.py lines 64-69): assert the row length
matches the column count, then append; a failed assert raises before the
append, so the table is unchanged. -/
def addData (t : Table) (row : List Value) : Except String Table :=
  if row.length = t.columns.length then
    .ok { t with data := t.data ++ [row] }
  else
    .error "data must have the same number of columns as the columns argument"

/-- The `for row in data: self.add_data(row)` loop of `_from_list`. -/
def addRows (t : Table) : List (List Value) → Except String Table
  | [] => .ok t
  | r :: rs =>
    match addData t r with
    | .ok t' => addRows t' rs
    | .error e => .error e

/-- `Table._from_list` (table.py lines 51-62): default columns
`["Input", "Output", "Expected"]` when none are given (the asserts on the
column labels' types are enforced by the `Col` type), then add every row
through `add_data`.  The initial empty-data state is the fresh table from
`Table.__init__`. -/
def fromList (rows : List (List Value)) (columns : Option (List Col)) : Except String Table :=
  let cols := columns.getD [Col.cstr "Input", Col.cstr "Output", Col.cstr "Expected"]
  addRows { columns := cols, data := [], artifactRef := none } rows

/-- `Table.bind_to_artifact` (table.py lines 84-109): the base descriptor
from `super().bind_to_artifact` (modelled from the spec, `media.py` not
being in the sources: the object-kind discriminator `_type` set to
`OBJ_ARTIFACT_TYPE = "table"`, and the weak artifact reference recorded
on the instance), extended with `columns`, `ncols`, the serialized row
matrix `data`, and `nrows`. -/
def tableBindToArtifact (t : Table) (a : Artifact) : J × Table :=
  let p := bindRows a t.data
  (J.obj [("_type", J.str "table"),
          ("columns", J.list (t.columns.map colToJ)),
          ("ncols", J.int t.columns.length),
          ("data", J.list (p.1.map J.list)),
          ("nrows", J.int p.1.length)],
   { t with data := p.2, artifactRef := some a })

/-! ## JoinedTable (table.py lines 139-169) -/

/-- `join_keys: Union[str, List[str]]`. -/
inductive JoinKeys
  | one : String → JoinKeys
  | many : List String → JoinKeys
deriving DecidableEq, Repr

/-- Join keys in descriptors. -/
def jkToJ : JoinKeys → J
  | .one s => .str s
  | .many l => .list (l.map J.str)

/-- The JoinedTable state: the constituent tables, the join keys, and
the weak artifact reference of the `Media` base (modelled from the spec:
initialized unset by `Media.__init__`, `media.py` not being in the
sources). -/
structure JoinedTable where
  tables : List Table
  joinKeys : JoinKeys
  artifactRef : Option Artifact
deriving Repr

/-- `JoinedTable.__init__(*tables, join_keys)`: stores the tables and
keys; the artifact reference starts unset (modelled from the spec,
`media.py` not being in the sources). -/
def mkJoinedTable (tables : List Table) (jk : JoinKeys) : JoinedTable :=
  ⟨tables, jk, none⟩

/-- `JoinedTable._extract_table` (table.py lines 168-169): returns the
empty string, ignoring the table, the artifact and the index. -/
def extract_table (_t : Table) (_a : Artifact) (_i : Nat) : String := ""

/-- `JoinedTable.bind_to_artifact` (table.py lines 159-166): builds
`{_type, join_keys, table1, table2}` from `_extract_table` applied to the
enumerated tables (`tables[0]` / `tables[1]` raise IndexError when fewer
than two tables are stored).  It neither calls the base implementation
nor touches the instance, so the returned state is the input state. -/
def joinedTableBindToArtifact (jt : JoinedTable) (a : Artifact) :
    Except String (J × JoinedTable) :=
  let tables := jt.tables.enum.map (fun p => extract_table p.2 a p.1)
  match tables with
  | t1 :: t2 :: _ =>
    .ok (J.obj [("_type", J.str "joined-table"),
                ("join_keys", jkToJ jt.joinKeys),
                ("table1", J.str t1),
                ("table2", J.str t2)],
         jt)
  | _ => .error "list index out of range"

/-- `JoinedTable.to_json` (table.py lines 151-157): raises
`ValueError("Cannot serialize unbound media object.")` while the artifact
reference is unset, else returns `{_type, artifact_path}`. -/
def joinedTableToJson (jt : JoinedTable) : Except String J :=
  match jt.artifactRef with
  | none => .error "Cannot serialize unbound media object."
  | some a =>
    .ok (J.obj [("_type", J.str "joined-table"),
                ("artifact_path", J.str a.artifact_path)])

/-! ## Video formats and VideoSequence (video.py) -/

/-- `Video.SUPPORTED_FORMATS` (video.py line 27). -/
def SUPPORTED_FORMATS : List String := ["mp4", "webm", "gif", "ogg"]

/-- `Video.DEFAULT_FORMAT` (video.py line 25). -/
def DEFAULT_FORMAT : String := "GIF"

/-- The input-validation part of `Video.from_path` (video.py lines
98-103): the format is the path's extension, and
`assert self._format in self.SUPPORTED_FORMATS` rejects anything outside
the whitelist. -/
def videoFromPathFormat (ext : String) : Except String String :=
  if SUPPORTED_FORMATS.contains ext then .ok ext
  else .error ("Unsupported format: " ++ ext)

/-- Python `str.lower()` (ASCII case mapping, which covers every format
string the module handles), mapped over the characters. -/
def pyLower (s : String) : String := ⟨s.data.map Char.toLower⟩

/-- The format handling of `Video.from_buffer` (video.py lines 92-96):
`(format or DEFAULT_FORMAT).lower()`, with no whitelist check. -/
def videoFromBufferFormat (format : Option String) : Except String String :=
  .ok (pyLower (format.getD DEFAULT_FORMAT))

/-- The format handling of `Video.from_numpy` (video.py lines 105-108):
`(format or DEFAULT_FORMAT).lower()`, with no whitelist check at
input-validation time (array and tensor inputs go through this path). -/
def videoFromNumpyFormat (format : Option String) : Except String String :=
  .ok (pyLower (format.getD DEFAULT_FORMAT))

/-- The Video state observable by serialization: caption, the
reserved-width/height placeholders, the format, and the weak artifact
reference of the `Media` base (modelled from the spec: initialized unset,
`media.py` not being in the sources). -/
structure VideoObj where
  caption : Option String
  width : Option Int
  height : Option Int
  format : String
  artifactRef : Option Artifact
deriving Repr

/-- `Video.bind_to_artifact` (video.py lines 82-90): the base descriptor
from `super().bind_to_artifact` (modelled from the spec, `media.py` not
being in the sources: `_type` set to `OBJ_ARTIFACT_TYPE = "video-file"`
and the artifact reference recorded), then `width`/`height` only when
populated and `caption` only when truthy (non-empty). -/
def videoBindToArtifact (v : VideoObj) (a : Artifact) : J × VideoObj :=
  let fields := [("_type", J.str "video-file")]
    ++ (match v.width with | some w => [("width", J.int w)] | none => [])
    ++ (match v.height with | some h => [("height", J.int h)] | none => [])
    ++ (match v.caption with
        | some c => if c = "" then [] else [("caption", J.str c)]
        | none => [])
  (J.obj fields, { v with artifactRef := some a })

/-- `Video.to_json` (video.py lines 58-65): the base descriptor from
`super().to_json` (modelled from the spec, `media.py` not being in the
sources: the `_type` discriminator, `OBJ_TYPE = "video-file"`), extended
with the caption (possibly null). -/
def videoToJson (v : VideoObj) : J :=
  J.obj [("_type", J.str "video-file"),
         ("caption", match v.caption with | some c => J.str c | none => J.null)]

/-- The VideoSequence state: the ordered homogeneous items of the
`MediaSequence` base (modelled from the spec, `media.py` not being in
the sources). -/
structure VideoSeq where
  items : List VideoObj
deriving Repr

/-- `VideoSequence.bind_to_artifact` (video.py lines 200-204):
`super().bind_to_artifact` binds every element to the same artifact in
order (modelled from the spec section 4.6, `media.py` not being in the
sources), and the returned descriptor is
`{"_type": OBJ_ARTIFACT_TYPE}` — nothing else. -/
def videoSeqBindToArtifact (s : VideoSeq) (a : Artifact) : J × VideoSeq :=
  let items2 := s.items.map (fun v => (videoBindToArtifact v a).2)
  (J.obj [("_type", J.str "videos")], { items := items2 })

/-- `VideoSequence.to_json` (video.py lines 206-212):
`{_type, count, videos: [item.to_json() ...]}`. -/
def videoSeqToJson (s : VideoSeq) : J :=
  J.obj [("_type", J.str "videos"),
         ("count", J.int s.items.length),
         ("videos", J.list (s.items.map videoToJson))]

/-- The row-length invariant of a Table (spec section 3). -/
def RowInv (t : Table) : Prop := ∀ r ∈ t.data, r.length = t.columns.length

/-! ## Reachable table states (for the row-length invariant) -/

/-- Table states reachable through the public construction API:
a successful `Table(...)` construction (`_from_list`, which the numpy,
pandas and plain-list branches all funnel into) followed by any number of
successful `add_data` calls. -/
inductive TableReachable : Table → Prop
  | init (rows : List (List Value)) (cols : Option (List Col)) (t : Table) :
      fromList rows cols = .ok t → TableReachable t
  | add (t : Table) (row : List Value) (t' : Table) :
      TableReachable t → addData t row = .ok t' → TableReachable t'


/-! ## Helper lemmas -/

/-- Evaluation rule for the padding step when the batch is not a power of
two. -/
theorem pad_to_pow2_of_not_pow2 (a : NDArray) (b : Nat) (hb : a.shape.headD 0 = b)
    (h : is_power2 b = false) :
    pad_to_pow2 a = np_concat0 a (np_zeros ((2 ^ bitLength b - b) :: a.shape.tail)) := by
  unfold pad_to_pow2
  rw [hb, h]
  rfl

/-- Evaluation rule for the padding step when the batch is a power of
two: the step is the identity. -/
theorem pad_to_pow2_of_pow2 (a : NDArray) (h : is_power2 (a.shape.headD 0) = true) :
    pad_to_pow2 a = a := by
  unfold pad_to_pow2
  rw [h]
  rfl

/-- Evaluation rule for `tile_batch` with the grid dimensions resolved. -/
theorem tile_batch_unfold (d : NDArray) (b t c h w nr nc : Nat)
    (hnr : grid_rows b = nr) (hnc : d.shape.headD 0 / nr = nc) :
    tile_batch d b t c h w =
      match np_reshape d [nr, nc, t, c, h, w] with
      | .ok r1 => np_reshape (np_transpose r1 [2, 0, 4, 1, 5, 3]) [t, nr * h, nc * w, c]
      | .error e => .error e := by
  simp only [tile_batch]
  rw [hnr, hnc]
  cases hx : np_reshape d [nr, nc, t, c, h, w] <;> rfl

/-- Tiling a padded `(8, 3, 1, 2, 2)` array (any dtype, any data)
produces a `(3, 4, 8, 1)` array. -/
theorem tile_8_shape (dx : Dtype) (ds : List Int) :
    ∃ out, tile_batch ⟨[8, 3, 1, 2, 2], dx, ds⟩ 5 3 1 2 2 = Except.ok out ∧
      out.shape = [3, 4, 8, 1] := by
  rw [tile_batch_unfold ⟨[8, 3, 1, 2, 2], dx, ds⟩ 5 3 1 2 2 2 4 rfl
    (by show (8 : Nat) / 2 = 4; rfl)]
  exact ⟨_, rfl, rfl⟩

/-- A successful `add_data` certifies the length check and appends the
row. -/
theorem addData_ok_cases (t t' : Table) (row : List Value)
    (h : addData t row = .ok t') :
    row.length = t.columns.length ∧ t' = { t with data := t.data ++ [row] } := by
  unfold addData at h
  split at h
  · exact ⟨by assumption, by injection h with h2; exact h2.symm⟩
  · cases h

/-- A successful `add_data` preserves the row-length invariant. -/
theorem addData_preserves (t t' : Table) (row : List Value)
    (hinv : RowInv t) (h : addData t row = .ok t') : RowInv t' := by
  obtain ⟨hlen, rfl⟩ := addData_ok_cases t t' row h
  intro r hr
  simp only [List.mem_append, List.mem_singleton] at hr
  rcases hr with hr | rfl
  · exact hinv r hr
  · exact hlen

/-- The `_from_list` insertion loop preserves the row-length invariant. -/
theorem addRows_preserves (rows : List (List Value)) (t t' : Table)
    (hinv : RowInv t) (h : addRows t rows = .ok t') : RowInv t' := by
  induction rows generalizing t with
  | nil =>
    unfold addRows at h
    injection h with h2
    exact h2 ▸ hinv
  | cons r rs ih =>
    unfold addRows at h
    split at h
    · exact ih _ (addData_preserves _ _ _ hinv (by assumption)) h
    · cases h

/-- A table successfully built by `_from_list` satisfies the row-length
invariant. -/
theorem fromList_inv (rows : List (List Value)) (cols : Option (List Col))
    (t : Table) (h : fromList rows cols = .ok t) : RowInv t := by
  unfold fromList at h
  exact addRows_preserves rows _ t (by intro r hr; cases hr) h

mutual

/-- Re-serializing a cell after its media have been bound to the same
artifact yields the same descriptor and the same cell: the nested-media
descriptor never depends on the recorded artifact reference. -/
theorem bindValue_idem (a : Artifact) : (v : Value) →
    bindValue a (bindValue a v).2 = bindValue a v
  | .vstr s => rfl
  | .vint n => rfl
  | .vlist l => by
    have h := bindList_idem a l
    simp [bindValue, h]
  | .vdict d => by
    have h := bindDict_idem a d
    simp [bindValue, h]
  | .vmedia m => rfl

/-- `bindValue_idem` over a list cell. -/
theorem bindList_idem (a : Artifact) : (l : List Value) →
    bindList a (bindList a l).2 = bindList a l
  | [] => rfl
  | v :: vs => by
    have h1 := bindValue_idem a v
    have h2 := bindList_idem a vs
    simp [bindList, h1, h2]

/-- `bindValue_idem` over a dict cell. -/
theorem bindDict_idem (a : Artifact) : (d : List (String × Value)) →
    bindDict a (bindDict a d).2 = bindDict a d
  | [] => rfl
  | (k, v) :: rest => by
    have h1 := bindValue_idem a v
    have h2 := bindDict_idem a rest
    simp [bindDict, h1, h2]

end

/-- `bindValue_idem` over the whole row matrix. -/
theorem bindRows_idem (a : Artifact) : (d : List (List Value)) →
    bindRows a (bindRows a d).2 = bindRows a d
  | [] => rfl
  | r :: rs => by
    have h1 := bindList_idem a r
    have h2 := bindRows_idem a rs
    simp [bindRows, h1, h2]

/-! ## Claim theorems -/

/-- Claim C1: for every numeric array of shape `(batch=5, time=3,
channel=1, height=2, width=2)`, `prepare_data` pads the batch dimension
to 8 by appending exactly 3 zero frames (36 = 3·(3·1·2·2) zero entries),
arranges the padded batch into a grid of `rows = 2` and `cols = 4`, and
returns an array of shape `(3, 4, 8, 1)` = (time, rows·height,
cols·width, channel). -/
theorem prepare_data_shape_law (dt : Dtype) (xs : List Int) (hlen : xs.length = 5 * 3 * 1 * 2 * 2) :
    let a : NDArray := ⟨[5, 3, 1, 2, 2], dt, xs⟩
    let padded := pad_to_pow2 (cast_uint8_step a)
    padded.shape = [8, 3, 1, 2, 2] ∧
    padded.data = (cast_uint8_step a).data ++ List.replicate (3 * (3 * 1 * 2 * 2)) 0 ∧
    grid_rows 5 = 2 ∧ padded.shape.headD 0 / grid_rows 5 = 4 ∧
    ∃ out, prepare_data a = Except.ok out ∧ out.shape = [3, 4, 8, 1] := by
  intro a padded
  have hpad : padded = np_concat0 (cast_uint8_step a) (np_zeros [3, 3, 1, 2, 2]) := by
    show pad_to_pow2 (cast_uint8_step a) = _
    rw [pad_to_pow2_of_not_pow2 (cast_uint8_step a) 5 (by cases dt <;> rfl) rfl]
    cases dt <;> rfl
  have hpd : prepare_data a = tile_batch padded 5 3 1 2 2 := rfl
  refine ⟨?_, ?_, rfl, ?_, ?_⟩
  · rw [hpad]; cases dt <;> rfl
  · rw [hpad]; cases dt <;> rfl
  · rw [hpad]
    cases dt <;> (show (8 : Nat) / grid_rows 5 = 4; rfl)
  · rw [hpd, hpad]
    cases dt
    · exact tile_8_shape _ _
    · exact tile_8_shape _ _
    · exact tile_8_shape _ _

/-- Witness for claim C1 at the all-zero uint8 array. -/
theorem prepare_data_shape_law_witness :
    (List.replicate 60 (0 : Int)).length = 5 * 3 * 1 * 2 * 2 ∧
    (let a : NDArray := ⟨[5, 3, 1, 2, 2], Dtype.uint8, List.replicate 60 0⟩
     let padded := pad_to_pow2 (cast_uint8_step a)
     padded.shape = [8, 3, 1, 2, 2] ∧
     padded.data = (cast_uint8_step a).data ++ List.replicate (3 * (3 * 1 * 2 * 2)) 0 ∧
     grid_rows 5 = 2 ∧ padded.shape.headD 0 / grid_rows 5 = 4 ∧
     ∃ out, prepare_data a = Except.ok out ∧ out.shape = [3, 4, 8, 1]) :=
  ⟨by rw [List.length_replicate],
   prepare_data_shape_law Dtype.uint8 (List.replicate 60 0) (by rw [List.length_replicate])⟩

/-- Claim C2 (code bug): an input whose batch needs padding comes out of
`prepare_data` as `float64`, not `uint8` — the `np.zeros` padding is
created with numpy's default dtype and `np.concatenate` promotes the
whole array — whereas a power-of-two batch (no padding) is indeed cast
down to `uint8`. -/
theorem prepare_data_padding_drops_uint8 :
    (prepare_data ⟨[5, 1, 1, 1, 1], .uint8, List.replicate 5 0⟩).toOption.map NDArray.dtype
      = some Dtype.float64 ∧
    (prepare_data ⟨[4, 1, 1, 1, 1], .int64, List.replicate 4 0⟩).toOption.map NDArray.dtype
      = some Dtype.uint8 := by decide

/-- Counterexample to claim C3: requesting the non-whitelisted format
`avi` through the buffer or array constructor does not fail at
input-validation time. -/
theorem video_buffer_format_not_validated :
    videoFromBufferFormat (some "avi") = Except.ok "avi" ∧
    videoFromNumpyFormat (some "avi") = Except.ok "avi" ∧
    SUPPORTED_FORMATS.contains "avi" = false := by
  refine ⟨?_, ?_, rfl⟩
  · show Except.ok (pyLower ((some "avi").getD DEFAULT_FORMAT)) = Except.ok "avi"
    exact congrArg Except.ok (by decide)
  · show Except.ok (pyLower ((some "avi").getD DEFAULT_FORMAT)) = Except.ok "avi"
    exact congrArg Except.ok (by decide)

/-- Claim C3 (amended): only path-based construction validates the
format — `from_path` rejects any extension outside the whitelist, while
`from_buffer` and `from_numpy` accept any requested format string at
input-validation time (lower-cased, defaulting to gif). -/
theorem video_format_validation (ext : String)
    (hext : SUPPORTED_FORMATS.contains ext = false) (fmt : Option String) :
    videoFromPathFormat ext = Except.error ("Unsupported format: " ++ ext) ∧
    videoFromBufferFormat fmt = Except.ok (pyLower (fmt.getD DEFAULT_FORMAT)) ∧
    videoFromNumpyFormat fmt = Except.ok (pyLower (fmt.getD DEFAULT_FORMAT)) := by
  refine ⟨?_, rfl, rfl⟩
  unfold videoFromPathFormat
  rw [hext]
  rfl

/-- Witness for claim C3 (amended) at the format `avi`. -/
theorem video_format_validation_witness :
    SUPPORTED_FORMATS.contains "avi" = false ∧
    (videoFromPathFormat "avi" = Except.error ("Unsupported format: " ++ "avi") ∧
     videoFromBufferFormat (some "avi") = Except.ok (pyLower ((some "avi").getD DEFAULT_FORMAT)) ∧
     videoFromNumpyFormat (some "avi") = Except.ok (pyLower ((some "avi").getD DEFAULT_FORMAT))) :=
  ⟨rfl, video_format_validation "avi" rfl (some "avi")⟩

/-- Counterexample to claim C4: on a concrete two-table JoinedTable,
`bind_to_artifact` returns `""` for both `table1` and `table2`, leaves
both constituent tables unbound (no artifact reference recorded), and
produces a descriptor that does not depend on the artifact at all — so
`table1`/`table2` are not obtained by binding the tables to the artifact
and extracting a content reference. -/
theorem joined_table_extract_is_stub :
    (joinedTableBindToArtifact
        (mkJoinedTable [⟨[Col.cstr "id"], [[Value.vint 1]], none⟩,
                        ⟨[Col.cstr "id"], [[Value.vint 2]], none⟩] (JoinKeys.one "id"))
        ⟨"artifacts/run-a"⟩).map
        (fun p => (jGet "table1" p.1, jGet "table2" p.1,
                   p.2.tables.map Table.artifactRef)) =
      Except.ok (some (J.str ""), some (J.str ""), [none, none]) ∧
    (joinedTableBindToArtifact
        (mkJoinedTable [⟨[Col.cstr "id"], [[Value.vint 1]], none⟩,
                        ⟨[Col.cstr "id"], [[Value.vint 2]], none⟩] (JoinKeys.one "id"))
        ⟨"artifacts/run-a"⟩).map Prod.fst =
    (joinedTableBindToArtifact
        (mkJoinedTable [⟨[Col.cstr "id"], [[Value.vint 1]], none⟩,
                        ⟨[Col.cstr "id"], [[Value.vint 2]], none⟩] (JoinKeys.one "id"))
        ⟨"artifacts/other"⟩).map Prod.fst := ⟨rfl, rfl⟩

/-- Claim C4 (amended): for every JoinedTable over two Tables,
`bind_to_artifact` returns the descriptor
`{_type, join_keys, table1, table2}` in which `table1` and `table2` are
each the empty string produced by the `_extract_table` stub; the
constituent tables are not bound and the instance is returned
unchanged. -/
theorem joined_table_bind_descriptor (t1 t2 : Table) (jk : JoinKeys)
    (ref : Option Artifact) (a : Artifact) :
    joinedTableBindToArtifact ⟨[t1, t2], jk, ref⟩ a =
      Except.ok (J.obj [("_type", J.str "joined-table"), ("join_keys", jkToJ jk),
                        ("table1", J.str ""), ("table2", J.str "")],
                 ⟨[t1, t2], jk, ref⟩) := rfl

/-- Claim C5: every table reachable through construction and `add_data`
has all stored rows of length `len(columns)`, and an `add_data` call with
a mismatched row length fails with the assert message (before any append,
so the stored rows and the row count are unchanged). -/
theorem table_row_length_invariant :
    (∀ t : Table, TableReachable t → ∀ r ∈ t.data, r.length = t.columns.length) ∧
    (∀ (t : Table) (row : List Value), row.length ≠ t.columns.length →
      addData t row =
        Except.error "data must have the same number of columns as the columns argument") := by
  constructor
  · intro t ht
    induction ht with
    | init rows cols t h => exact fromList_inv rows cols t h
    | add t row t' _ hstep ih => exact addData_preserves t t' row ih hstep
  · intro t row hne
    unfold addData
    rw [if_neg hne]

/-- Witness for claim C5: a one-column table built from one row, and a
rejected empty-row insert. -/
theorem table_row_length_invariant_witness :
    ([Value.vint 1] : List Value).length = ([Col.cstr "a"] : List Col).length ∧
    addData ⟨[Col.cstr "a"], [[Value.vint 1]], none⟩ [] =
      Except.error "data must have the same number of columns as the columns argument" := by
  constructor
  · exact table_row_length_invariant.1 ⟨[Col.cstr "a"], [[Value.vint 1]], none⟩
      (TableReachable.init [[Value.vint 1]] (some [Col.cstr "a"]) _ rfl)
      [Value.vint 1] (by simp)
  · exact table_row_length_invariant.2 ⟨[Col.cstr "a"], [[Value.vint 1]], none⟩ [] (by simp)

/-- Claim C6: for every 5-D array whose batch dimension is already an
exact power of two, the padding step of `prepare_data` is a no-op (zero
frames added), so `prepare_data` tiles exactly the original
(dtype-coerced) batch elements. -/
theorem prepare_data_pow2_no_padding (b t c h w : Nat) (dt : Dtype) (xs : List Int)
    (hb : is_power2 b = true) :
    let a : NDArray := ⟨[b, t, c, h, w], dt, xs⟩
    pad_to_pow2 (cast_uint8_step a) = cast_uint8_step a ∧
    prepare_data a = tile_batch (cast_uint8_step a) b t c h w := by
  intro a
  have hsh : (cast_uint8_step a).shape = [b, t, c, h, w] := by
    cases dt <;> rfl
  have h1 : pad_to_pow2 (cast_uint8_step a) = cast_uint8_step a := by
    refine pad_to_pow2_of_pow2 _ ?_
    rw [hsh]
    simpa using hb
  have h0 : prepare_data a = tile_batch (pad_to_pow2 (cast_uint8_step a)) b t c h w := rfl
  rw [h0, h1]
  exact ⟨rfl, rfl⟩

/-- Witness for claim C6 at a batch-4 array. -/
theorem prepare_data_pow2_no_padding_witness :
    is_power2 4 = true ∧
    (let a : NDArray := ⟨[4, 1, 1, 1, 1], Dtype.uint8, [1, 2, 3, 4]⟩
     pad_to_pow2 (cast_uint8_step a) = cast_uint8_step a ∧
     prepare_data a = tile_batch (cast_uint8_step a) 4 1 1 1 1) :=
  ⟨rfl, prepare_data_pow2_no_padding 4 1 1 1 1 Dtype.uint8 [1, 2, 3, 4] rfl⟩

/-- Claim C7: `to_json` on a freshly constructed JoinedTable (any
tables, any join keys, `bind_to_artifact` never called) fails with the
state error. -/
theorem joined_table_to_json_unbound (tables : List Table) (jk : JoinKeys) :
    joinedTableToJson (mkJoinedTable tables jk) =
      Except.error "Cannot serialize unbound media object." := rfl

/-- Counterexample to claim C8: on a concrete one-video sequence, the
descriptor returned by `bind_to_artifact` is `{_type}` only — it has no
`count` key and no element list; the `{_type, count, videos}` shape is
returned by `to_json`. -/
theorem video_seq_bind_descriptor_lacks_count :
    (videoSeqBindToArtifact ⟨[⟨none, none, none, "gif", none⟩]⟩ ⟨"artifacts/run-a"⟩).1 =
      J.obj [("_type", J.str "videos")] ∧
    jGet "count" (videoSeqBindToArtifact ⟨[⟨none, none, none, "gif", none⟩]⟩
        ⟨"artifacts/run-a"⟩).1 = none ∧
    videoSeqToJson ⟨[⟨none, none, none, "gif", none⟩]⟩ =
      J.obj [("_type", J.str "videos"), ("count", J.int 1),
             ("videos", J.list [J.obj [("_type", J.str "video-file"), ("caption", J.null)]])] :=
  ⟨rfl, rfl, rfl⟩

/-- Claim C8 (amended): for every VideoSequence, `bind_to_artifact`
binds every element to the artifact in order but returns only
`{_type: "videos"}` (the sequence's own artifact-level kind tag), while
the `{_type, count, videos: [...]}` descriptor is what `to_json`
returns. -/
theorem video_seq_bind_and_to_json (s : VideoSeq) (a : Artifact) :
    (videoSeqBindToArtifact s a).1 = J.obj [("_type", J.str "videos")] ∧
    (videoSeqBindToArtifact s a).2.items
      = s.items.map (fun v => (videoBindToArtifact v a).2) ∧
    videoSeqToJson s =
      J.obj [("_type", J.str "videos"), ("count", J.int s.items.length),
             ("videos", J.list (s.items.map videoToJson))] := ⟨rfl, rfl, rfl⟩

/-- Claim C9: binding an unmodified Table to the same artifact twice
produces structurally identical descriptors (in particular the same
`columns`, `data`, `ncols` and `nrows` fields). -/
theorem table_bind_to_artifact_idempotent (t : Table) (a : Artifact) :
    (tableBindToArtifact (tableBindToArtifact t a).2 a).1 = (tableBindToArtifact t a).1 := by
  simp [tableBindToArtifact, bindRows_idem]

/-- Claim C10: `JoinedTable.bind_to_artifact` never records the artifact
reference on the instance, so `to_json` on the returned instance still
fails with the unbound-media state error even after a successful bind. -/
theorem joined_table_bind_never_records_artifact (t1 t2 : Table) (jk : JoinKeys) (a : Artifact) :
    (joinedTableBindToArtifact (mkJoinedTable [t1, t2] jk) a).map
        (fun p => (p.2.artifactRef, joinedTableToJson p.2)) =
      Except.ok ((none : Option Artifact),
        Except.error "Cannot serialize unbound media object.") := rfl

end Wandb
